import Mathlib

/-!
Verification of the moltworker remote process supervision subsystem.

Shallow embedding of the TypeScript sources:
- src/gateway/r2.ts        : isR2Mounted, mountR2Storage
- src/gateway/sync.ts      : syncToR2 (SyncResult)
- src/routes/debug.ts      : version extraction, process listing sort,
                             CLI and container-config poll loops, JSON parse.

Remote effects (startProcess, status reads, getLogs) are made explicit:
the sandbox backend is a record of responses, and each embedded operation
returns its result together with the list of remote calls it performed and
the console log events it emitted.  Machine integers do not occur; counters
are Nat.  Fallible remote calls are Except values.
-/

namespace Moltworker

/-! ### Strings: substring containment (String.prototype.includes) -/

/-- Character-list version of a starts-with test. -/
def listStartsWith : List Char → List Char → Bool
  | _, [] => true
  | [], _ :: _ => false
  | a :: s, b :: p => a == b && listStartsWith s p

/-- Character-list version of a contains test: some suffix starts with the
pattern. -/
def listContains : List Char → List Char → Bool
  | _, [] => true
  | [], _ :: _ => false
  | s, p =>
    if listStartsWith s p then true
    else
      match s with
      | [] => false
      | _ :: rest => listContains rest p

/-- Model of the JavaScript s.includes(pat): case-sensitive exact substring
containment, no normalization. -/
def strIncludes (s pat : String) : Bool :=
  listContains s.toList pat.toList

/-- Lexicographic strict comparison of character lists (code-point order). -/
def listLexLt : List Char → List Char → Bool
  | _, [] => false
  | [], _ :: _ => true
  | a :: s, b :: t => if a < b then true else if b < a then false else listLexLt s t

/-- Strict string comparison in code-point order; the order underlying the
localeCompare model below. -/
def strLt (a b : String) : Bool :=
  listLexLt a.toList b.toList

/-- Model of the JavaScript s.trim(): drop leading and trailing whitespace. -/
def listTrim (l : List Char) : List Char :=
  ((l.dropWhile Char.isWhitespace).reverse.dropWhile Char.isWhitespace).reverse

/-- String version of the trim model. -/
def strTrim (s : String) : String :=
  String.mk (listTrim s.toList)

/-! ### Data model: logs, process handles, sandbox backend -/

/-- A point-in-time log snapshot: getLogs() result. -/
structure Logs where
  stdout : String
  stderr : String
deriving DecidableEq

/-- A started remote process as observed by a poll loop: the status string
returned by the i-th status read, and the getLogs outcome.  A rejected
getLogs carries the rejection message. -/
structure Proc where
  statusAt : Nat → String
  getLogs : Except String Logs

/-- A remote call performed against the sandbox backend. -/
inductive RemoteCall
  | startProcess (cmd : String)
  | getStatus
  | getLogs
deriving DecidableEq

/-- The sandbox backend as seen by the r2 / sync code: startProcess maps the
command string to either a rejection message or a process handle. -/
structure SandboxR2 where
  startProcess : String → Except String Proc

/-- Worker environment bindings used by the R2 configuration check.
A credential is either absent (none) or a string value. -/
structure MoltbotEnv where
  R2_ACCESS_KEY_ID : Option String
  R2_SECRET_ACCESS_KEY : Option String
  CF_ACCOUNT_ID : Option String
deriving DecidableEq

/-- JavaScript falsiness of an optional string binding: absent or empty. -/
def isFalsy : Option String → Bool
  | none => true
  | some s => s == ""

/-! ### Poll loops

Each loop is embedded as a function from the observed status sequence to the
number of timed waits (sleeps) it performs.  The status reads are one more
than the waits for the check-first loop of isR2Mounted, and equal to the
waits for the sleep-first loops of the debug routes; the call traces below
record one getStatus event per status read of the check-first loop.
-/

/-- The poll loop of isR2Mounted (src/gateway/r2.ts): while the status reads
running and fewer than fuel waits happened, sleep 200 ms.  The status is
checked before each wait, so a handle that is not running at the first check
causes zero waits.  Returns the number of waits. -/
def checkFirstPollGo (statusAt : Nat → String) : Nat → Nat → Nat
  | 0, _ => 0
  | f + 1, idx =>
    if statusAt idx = "running" then checkFirstPollGo statusAt f (idx + 1) + 1 else 0

/-- isR2Mounted polls with attempts < 10 (200 ms interval). -/
def r2PollWaits (statusAt : Nat → String) : Nat :=
  checkFirstPollGo statusAt 10 0

/-- The poll loops of the /debug/cli and /debug/container-config routes
(src/routes/debug.ts): while attempts < fuel, sleep first, then check the
status and break when it is not running.  Returns the number of waits: the
first status check is preceded by exactly one wait. -/
def sleepFirstPollGo (statusAt : Nat → String) : Nat → Nat → Nat
  | 0, _ => 0
  | f + 1, idx =>
    1 + (if statusAt idx = "running" then sleepFirstPollGo statusAt f (idx + 1) else 0)

/-- /debug/cli polls with attempts < 30 (500 ms interval). -/
def cliPollWaits (statusAt : Nat → String) : Nat :=
  sleepFirstPollGo statusAt 30 0

/-- /debug/container-config polls with attempts < 10 (200 ms interval). -/
def containerConfigPollWaits (statusAt : Nat → String) : Nat :=
  sleepFirstPollGo statusAt 10 0

/-- Modelled from the spec: waitForProcess (imported by syncToR2 from
./utils, a file not present under src/).  Spec section 4.1: poll the status
at a fixed interval until it leaves running/starting or the elapsed budget
(5000 ms at this call site) is exhausted.  The interval is not in src; it is
modelled as 500 ms, giving 10 attempts.  Returns the number of waits. -/
def waitPollGo (statusAt : Nat → String) : Nat → Nat → Nat
  | 0, _ => 0
  | f + 1, idx =>
    if statusAt idx = "running" ∨ statusAt idx = "starting" then
      waitPollGo statusAt f (idx + 1) + 1
    else 0

/-- Modelled from the spec: the wait count of waitForProcess(proc, 5000). -/
def waitForProcessWaits (statusAt : Nat → String) : Nat :=
  waitPollGo statusAt 10 0

/-! ### Mount detection: isR2Mounted and mountR2Storage (src/gateway/r2.ts) -/

/-- Console log events of the r2 module, one constructor per console.log
call site, carrying the dynamic arguments:
- checkResult m s : console.log of the isR2Mounted verdict with the first
  100 characters of stdout;
- checkError e    : console.log of the isR2Mounted catch branch;
- notConfigured   : the mountR2Storage message that R2 storage is not
  configured (missing R2_ACCESS_KEY_ID, R2_SECRET_ACCESS_KEY, or
  CF_ACCOUNT_ID);
- mountActive p   : the mountR2Storage message that the FUSE mount is
  active at path p;
- mountNotYet     : the mountR2Storage message that the mount is not yet
  active. -/
inductive R2Log
  | checkResult (mounted : Bool) (stdoutFirst100 : String)
  | checkError (errMsg : String)
  | notConfigured
  | mountActive (path : String)
  | mountNotYet
deriving DecidableEq

/-- Outcome of isR2Mounted / mountR2Storage: the returned boolean, the
console log events, and the remote calls performed. -/
structure MountOutcome where
  mounted : Bool
  logs : List R2Log
  calls : List RemoteCall
deriving DecidableEq

/-- The remote command started by the mount check:
mount piped to grep for the quoted tigrisfs-on-path line. -/
def r2Cmd (path : String) : String :=
  "mount | grep \"tigrisfs on " ++ path ++ "\""

/-- R2_MOUNT_PATH is imported from ../config, a file not present under src/.
Modelled from the spec and the unit tests, which pin the configured mount
path to /data/moltbot. -/
def R2_MOUNT_PATH : String := "/data/moltbot"

/-- isR2Mounted (src/gateway/r2.ts), generalized over the mount path.
Starts the grep command, polls while running (up to 10 times, 200 ms),
fetches logs, and reports mounted iff stdout is non-empty and contains the
substring tigrisfs.  Any rejection is caught: the function returns false
and logs the error; nothing propagates. -/
def isR2MountedWith (path : String) (sandbox : SandboxR2) : MountOutcome :=
  match sandbox.startProcess (r2Cmd path) with
  | Except.error err =>
    { mounted := false
      logs := [R2Log.checkError err]
      calls := [RemoteCall.startProcess (r2Cmd path)] }
  | Except.ok proc =>
    let waits := r2PollWaits proc.statusAt
    let statusCalls := List.replicate (waits + 1) RemoteCall.getStatus
    match proc.getLogs with
    | Except.error err =>
      { mounted := false
        logs := [R2Log.checkError err]
        calls := RemoteCall.startProcess (r2Cmd path) :: statusCalls ++ [RemoteCall.getLogs] }
    | Except.ok logs =>
      let mounted := if logs.stdout = "" then false else strIncludes logs.stdout "tigrisfs"
      { mounted := mounted
        logs := [R2Log.checkResult mounted (logs.stdout.take 100)]
        calls := RemoteCall.startProcess (r2Cmd path) :: statusCalls ++ [RemoteCall.getLogs] }

/-- isR2Mounted at the configured mount path. -/
def isR2Mounted (sandbox : SandboxR2) : MountOutcome :=
  isR2MountedWith R2_MOUNT_PATH sandbox

/-- mountR2Storage (src/gateway/r2.ts): if any of the three credentials is
falsy, log the not-configured message and return false without any remote
call; otherwise delegate to isR2Mounted and log the outcome. -/
def mountR2Storage (sandbox : SandboxR2) (env : MoltbotEnv) : MountOutcome :=
  if isFalsy env.R2_ACCESS_KEY_ID || isFalsy env.R2_SECRET_ACCESS_KEY ||
      isFalsy env.CF_ACCOUNT_ID then
    { mounted := false, logs := [R2Log.notConfigured], calls := [] }
  else
    let inner := isR2Mounted sandbox
    if inner.mounted then
      { mounted := true
        logs := inner.logs ++ [R2Log.mountActive R2_MOUNT_PATH]
        calls := inner.calls }
    else
      { mounted := false
        logs := inner.logs ++ [R2Log.mountNotYet]
        calls := inner.calls }

/-! ### syncToR2 (src/gateway/sync.ts) -/

/-- The SyncResult shape returned by syncToR2. -/
structure SyncResult where
  success : Bool
  lastSync : Option String
  error : Option String
  details : Option String
deriving DecidableEq

/-- syncToR2 result together with the remote calls performed. -/
structure SyncOutcome where
  result : SyncResult
  calls : List RemoteCall
deriving DecidableEq

/-- syncToR2 (src/gateway/sync.ts), generalized over the mount path.
Validates the three credentials, then starts the grep command, waits via
waitForProcess(proc, 5000), fetches logs, and maps the tigrisfs substring
test to a SyncResult.  Rejections are caught and returned as
success = false with the rejection message in details (the source keeps
err.message when the rejection is an Error; rejections are modelled as
their message strings). -/
def syncToR2With (path : String) (sandbox : SandboxR2) (env : MoltbotEnv) : SyncOutcome :=
  if isFalsy env.R2_ACCESS_KEY_ID || isFalsy env.R2_SECRET_ACCESS_KEY ||
      isFalsy env.CF_ACCOUNT_ID then
    { result := { success := false, lastSync := none
                  error := some "R2 storage is not configured", details := none }
      calls := [] }
  else
    match sandbox.startProcess (r2Cmd path) with
    | Except.error err =>
      { result := { success := false, lastSync := none
                    error := some "Failed to check mount status", details := some err }
        calls := [RemoteCall.startProcess (r2Cmd path)] }
    | Except.ok proc =>
      let waits := waitForProcessWaits proc.statusAt
      let trace := RemoteCall.startProcess (r2Cmd path) ::
        List.replicate (waits + 1) RemoteCall.getStatus ++ [RemoteCall.getLogs]
      match proc.getLogs with
      | Except.error err =>
        { result := { success := false, lastSync := none
                      error := some "Failed to check mount status", details := some err }
          calls := trace }
      | Except.ok logs =>
        let mounted := if logs.stdout = "" then false else strIncludes logs.stdout "tigrisfs"
        if mounted then
          { result := { success := true
                        lastSync := some "live (FUSE mount active)"
                        error := none
                        details := some "Data is written directly to R2 via FUSE mount" }
            calls := trace }
        else
          { result := { success := false, lastSync := none
                        error := some "R2 FUSE mount not active"
                        details := some "The container may need to be restarted to mount R2" }
            calls := trace }

/-- syncToR2 at the configured mount path. -/
def syncToR2 (sandbox : SandboxR2) (env : MoltbotEnv) : SyncOutcome :=
  syncToR2With R2_MOUNT_PATH sandbox env

/-! ### /debug/version: version string extraction (src/routes/debug.ts) -/

/-- The clawdbot version extraction:
(versionLogs.stdout or else versionLogs.stderr or else the empty string),
trimmed.  JavaScript a-or-else-b keeps a when it is a non-empty string. -/
def clawdbotVersionOf (logs : Logs) : String :=
  strTrim (if logs.stdout = "" then (if logs.stderr = "" then "" else logs.stderr)
    else logs.stdout)

/-- The node version extraction: (nodeLogs.stdout or else the empty
string), trimmed.  stderr is not consulted. -/
def nodeVersionOf (logs : Logs) : String :=
  strTrim (if logs.stdout = "" then "" else logs.stdout)

/-- Reference definition following the words of the specification: the
trimmed first non-empty stream among stdout and stderr, preferring stdout,
otherwise the empty string.  Used to compare the two extraction call sites
of the version route against the specified behavior. -/
def specVersionExtract (logs : Logs) : String :=
  if logs.stdout = "" then (if logs.stderr = "" then "" else strTrim logs.stderr)
  else strTrim logs.stdout

/-! ### /debug/processes: enrichment and ordering (src/routes/debug.ts) -/

/-- A process handle as delivered by sandbox.listProcesses(), with the
getLogs outcome of that handle.  startTime and endTime are the ISO string
renderings (absent when the backend has not populated them). -/
structure ProcHandle where
  id : String
  command : String
  status : String
  startTime : Option String
  endTime : Option String
  exitCode : Option Int
  getLogs : Except String Logs

/-- One record of the /debug/processes response body. -/
structure ProcData where
  id : String
  command : String
  status : String
  startTime : Option String
  endTime : Option String
  exitCode : Option Int
  stdout : Option String
  stderr : Option String
  logs_error : Option String
deriving DecidableEq

/-- Per-handle enrichment of the /debug/processes route: the base fields,
plus, when includeLogs, either the stdout/stderr of a successful getLogs or
the logs_error marker when getLogs rejects.  A per-handle failure is caught
and never aborts the listing. -/
def enrichProcess (includeLogs : Bool) (p : ProcHandle) : ProcData :=
  let base : ProcData :=
    { id := p.id, command := p.command, status := p.status
      startTime := p.startTime, endTime := p.endTime, exitCode := p.exitCode
      stdout := none, stderr := none, logs_error := none }
  if includeLogs then
    match p.getLogs with
    | Except.ok l => { base with stdout := some l.stdout, stderr := some l.stderr }
    | Except.error _ => { base with logs_error := some "Failed to retrieve logs" }
  else base

/-- The status rank dictionary of the /debug/processes sort: running 0,
starting 1, completed 2, failed 3, anything else 99. -/
def statusOrder (s : String) : Nat :=
  if s = "running" then 0
  else if s = "starting" then 1
  else if s = "completed" then 2
  else if s = "failed" then 3
  else 99

/-- The secondary sort key: startTime, with an absent startTime compared as
the empty string. -/
def timeKey (d : ProcData) : String :=
  d.startTime.getD ""

/-- Model of a.localeCompare(b) on ISO timestamp strings: three-way
comparison under the lexicographic string order. -/
def localeCompareModel (a b : String) : Int :=
  if strLt a b then -1 else if strLt b a then 1 else 0

/-- The comparator passed to processData.sort: status ranks first
(ascending), then startTime descending via localeCompare of b before a. -/
def procCompare (a b : ProcData) : Int :=
  let sA := statusOrder a.status
  let sB := statusOrder b.status
  if sA ≠ sB then (sA : Int) - (sB : Int)
  else localeCompareModel (timeKey b) (timeKey a)

/-- The non-strict order induced by the comparator. -/
def procLE (a b : ProcData) : Prop :=
  procCompare a b ≤ 0

instance : DecidableRel procLE :=
  fun a b => inferInstanceAs (Decidable (procCompare a b ≤ 0))

/-- Model of processData.sort(comparator): JavaScript Array.prototype.sort
is a stable sort honoring a consistent comparator (ES2019); embedded as
insertion sort by the induced order. -/
def sortProcesses (l : List ProcData) : List ProcData :=
  List.insertionSort procLE l

/-- The /debug/processes route body: enrich every handle, then sort. -/
def listProcessesRoute (includeLogs : Bool) (handles : List ProcHandle) : List ProcData :=
  sortProcesses (handles.map (enrichProcess includeLogs))

/-! ### /debug/container-config: structured parse (src/routes/debug.ts) -/

/-- Shallow model of a JSON value, as far as null-ness and JavaScript
truthiness are concerned. -/
inductive JsonValue
  | jnull
  | jbool (b : Bool)
  | jnum (n : Int)
  | jstr (s : String)
  | jarr
  | jobj
deriving DecidableEq

/-- JavaScript truthiness of a parsed JSON value. -/
def jsTruthy : JsonValue → Bool
  | JsonValue.jnull => false
  | JsonValue.jbool b => b
  | JsonValue.jnum n => !(n == 0)
  | JsonValue.jstr s => !(s == "")
  | JsonValue.jarr => true
  | JsonValue.jobj => true

/-- The /debug/container-config response body. -/
structure ContainerConfigResp where
  status : String
  exitCode : Option Int
  config : JsonValue
  raw : Option String
  stderr : String
deriving DecidableEq

/-- The /debug/container-config handler after the poll: JSON.parse is the
platform collaborator P (none models a parse exception, which the source
catches, leaving config null).  raw is stdout when config is not truthy,
undefined otherwise; nothing ever propagates to the caller. -/
def containerConfigRead (P : String → Option JsonValue) (status : String)
    (exitCode : Option Int) (logs : Logs) : ContainerConfigResp :=
  let stdout := logs.stdout
  let config := (P stdout).getD JsonValue.jnull
  { status := status
    exitCode := exitCode
    config := config
    raw := if jsTruthy config then none else some stdout
    stderr := logs.stderr }

/-- Two successive calls of the mount detector against the same backend,
with no intervening backend state change: the source keeps no module-level
mutable state, so the second call re-runs the same remote protocol. -/
def syncToR2Twice (sandbox : SandboxR2) (env : MoltbotEnv) : SyncOutcome × SyncOutcome :=
  (syncToR2 sandbox env, syncToR2 sandbox env)

/-!
## Lemmas and claim theorems
-/

/-- The boolean lexicographic comparison agrees with the Lex order on
character lists. -/
lemma listLexLt_iff_lex : ∀ l1 l2 : List Char, listLexLt l1 l2 = true ↔ List.Lex (· < ·) l1 l2
  | l1, [] => by
    cases l1 <;> simp [listLexLt, List.Lex.not_nil_right]
  | [], b :: t => by
    simp [listLexLt]
    exact List.Lex.nil
  | a :: s, b :: t => by
    rw [listLexLt]
    by_cases hab : a < b
    · simp [hab]
      exact List.Lex.rel hab
    · by_cases hba : b < a
      · simp [hab, hba]
        intro h
        cases h with
        | rel h => exact absurd h hab
        | cons h => exact absurd hba (lt_irrefl a)
      · have heq : a = b := le_antisymm (le_of_not_lt hba) (le_of_not_lt hab)
        subst heq
        simp [lt_irrefl]
        rw [listLexLt_iff_lex s t]
        exact List.Lex.cons_iff.symm

/-- The boolean string comparison agrees with the string order. -/
lemma strLt_iff (a b : String) : strLt a b = true ↔ a < b := by
  rw [strLt, String.lt_iff_toList_lt, listLexLt_iff_lex]
  rfl

/-- The three-way localeCompare model is nonpositive exactly for ordered
arguments. -/
lemma localeCompareModel_nonpos_iff (x y : String) :
    localeCompareModel x y ≤ 0 ↔ x ≤ y := by
  rw [localeCompareModel]
  by_cases h1 : strLt x y = true
  · rw [if_pos h1]
    have hxy : x < y := (strLt_iff x y).mp h1
    constructor
    · intro _; exact le_of_lt hxy
    · intro _; decide
  · rw [if_neg h1]
    have hxy : ¬ x < y := fun hl => h1 ((strLt_iff x y).mpr hl)
    by_cases h2 : strLt y x = true
    · rw [if_pos h2]
      have hyx : y < x := (strLt_iff y x).mp h2
      constructor
      · intro hc; exact absurd hc (by decide)
      · intro hle; exact absurd hyx (not_lt_of_le hle)
    · rw [if_neg h2]
      have hyx : ¬ y < x := fun hl => h2 ((strLt_iff y x).mpr hl)
      constructor
      · intro _; exact le_of_not_lt hyx
      · intro _; decide

/-- The comparator is nonpositive exactly for the two-key order: status
rank ascending, then startTime descending. -/
lemma procCompare_nonpos_iff (a b : ProcData) :
    procCompare a b ≤ 0 ↔
      (statusOrder a.status < statusOrder b.status ∨
       (statusOrder a.status = statusOrder b.status ∧ timeKey b ≤ timeKey a)) := by
  rw [procCompare]
  by_cases h : statusOrder a.status = statusOrder b.status
  · rw [if_neg (fun hne => hne h)]
    rw [localeCompareModel_nonpos_iff]
    constructor
    · intro hle; exact Or.inr ⟨h, hle⟩
    · rintro (hlt | ⟨_, hle⟩)
      · rw [h] at hlt; exact absurd hlt (lt_irrefl _)
      · exact hle
  · rw [if_pos h]
    constructor
    · intro hle
      have hcast : statusOrder a.status ≤ statusOrder b.status := by
        have := sub_nonpos.mp hle
        exact_mod_cast this
      exact Or.inl (lt_of_le_of_ne hcast h)
    · rintro (hlt | ⟨heq, _⟩)
      · have hc : (statusOrder a.status : Int) < (statusOrder b.status : Int) := by
          exact_mod_cast hlt
        omega
      · exact absurd heq h

/-- Characterization of the induced non-strict order. -/
lemma procLE_iff (a b : ProcData) :
    procLE a b ↔
      (statusOrder a.status < statusOrder b.status ∨
       (statusOrder a.status = statusOrder b.status ∧ timeKey b ≤ timeKey a)) :=
  procCompare_nonpos_iff a b

/-- The comparator order is total. -/
lemma procLE_total : IsTotal ProcData procLE where
  total a b := by
    rw [procLE_iff, procLE_iff]
    rcases lt_trichotomy (statusOrder a.status) (statusOrder b.status) with h | h | h
    · exact Or.inl (Or.inl h)
    · rcases le_total (timeKey b) (timeKey a) with ht | ht
      · exact Or.inl (Or.inr ⟨h, ht⟩)
      · exact Or.inr (Or.inr ⟨h.symm, ht⟩)
    · exact Or.inr (Or.inl h)

/-- The comparator order is transitive. -/
lemma procLE_trans : IsTrans ProcData procLE where
  trans a b c := by
    rw [procLE_iff, procLE_iff, procLE_iff]
    rintro (h1 | ⟨e1, t1⟩) (h2 | ⟨e2, t2⟩)
    · exact Or.inl (h1.trans h2)
    · exact Or.inl (e2 ▸ h1)
    · exact Or.inl (e1 ▸ h2)
    · exact Or.inr ⟨e1.trans e2, t2.trans t1⟩

/-- Records agreeing on both sort keys are mutually ordered. -/
lemma procLE_of_same (x y : ProcData) (hs : x.status = y.status)
    (ht : x.startTime = y.startTime) : procLE x y := by
  rw [procLE_iff]
  right
  constructor
  · rw [hs]
  · rw [timeKey, timeKey, ht]

section Stability

variable {α : Type} (r : α → α → Prop) [DecidableRel r] (p : α → Bool)

/-- Inserting an element not satisfying p leaves the p-filtered list
unchanged. -/
lemma filter_orderedInsert_of_neg (a : α) (ha : p a = false) :
    ∀ l : List α, (List.orderedInsert r a l).filter p = l.filter p := by
  intro l
  induction l with
  | nil => simp [List.orderedInsert, ha]
  | cons y l ih =>
    rw [List.orderedInsert]
    by_cases hr : r a y
    · rw [if_pos hr]
      simp [List.filter_cons, ha]
    · rw [if_neg hr]
      simp only [List.filter_cons, ih]

/-- Inserting an element of the p-class below every p-element of the list
prepends it to the p-filtered list: insertion sort is stable. -/
lemma filter_orderedInsert_of_pos (a : α) (ha : p a = true) :
    ∀ l : List α, (∀ z ∈ l, p z = true → r a z) →
      (List.orderedInsert r a l).filter p = a :: l.filter p := by
  intro l
  induction l with
  | nil => simp [List.orderedInsert, ha]
  | cons y l ih =>
    intro hz
    rw [List.orderedInsert]
    by_cases hr : r a y
    · rw [if_pos hr]
      simp [List.filter_cons, ha]
    · rw [if_neg hr]
      have hy : p y = false := by
        cases hpy : p y with
        | true => exact absurd (hz y (List.mem_cons_self y l) hpy) hr
        | false => rfl
      rw [List.filter_cons, List.filter_cons, if_neg (by simp [hy]), if_neg (by simp [hy])]
      exact ih (fun z hzl hpz => hz z (List.mem_cons_of_mem y hzl) hpz)

/-- Stability of insertion sort: when all p-elements are mutually ordered
by r, sorting does not change the p-filtered subsequence. -/
lemma filter_insertionSort (hp : ∀ x y, p x = true → p y = true → r x y) :
    ∀ l : List α, (List.insertionSort r l).filter p = l.filter p := by
  intro l
  induction l with
  | nil => rfl
  | cons x l ih =>
    rw [List.insertionSort]
    cases hx : p x with
    | true =>
      rw [filter_orderedInsert_of_pos r p x hx _
            (fun z _ hpz => hp x z hx hpz),
          ih, List.filter_cons, if_pos (by simp [hx])]
    | false =>
      rw [filter_orderedInsert_of_neg r p x hx, ih, List.filter_cons,
          if_neg (by simp [hx])]

end Stability

/-- A check-first poll loop with remaining fuel performs no wait when the
first status it reads is not running. -/
lemma checkFirstPollGo_not_running (statusAt : Nat → String) (f idx : Nat)
    (h : statusAt idx ≠ "running") : checkFirstPollGo statusAt (f + 1) idx = 0 := by
  rw [checkFirstPollGo, if_neg h]

/-- A sleep-first poll loop with remaining fuel performs exactly its one
pre-check wait when the first status it reads is not running. -/
lemma sleepFirstPollGo_not_running (statusAt : Nat → String) (f idx : Nat)
    (h : statusAt idx ≠ "running") : sleepFirstPollGo statusAt (f + 1) idx = 1 := by
  rw [sleepFirstPollGo, if_neg h]

/-- The empty stdout does not contain the tigrisfs marker. -/
lemma strIncludes_empty_tigrisfs : strIncludes "" "tigrisfs" = false := by decide

/-- The non-empty-stdout guard of the mount verdict is redundant for the
non-empty tigrisfs marker. -/
lemma mounted_flag_eq (s : String) :
    (if s = "" then false else strIncludes s "tigrisfs") = strIncludes s "tigrisfs" := by
  by_cases h : s = ""
  · subst h
    rw [if_pos rfl, strIncludes_empty_tigrisfs]
  · rw [if_neg h]

/-- Trim of the empty string. -/
lemma strTrim_empty : strTrim "" = "" := rfl

/-- C1: in every environment where at least one of R2_ACCESS_KEY_ID,
R2_SECRET_ACCESS_KEY, CF_ACCOUNT_ID is absent (or empty), mountR2Storage
returns false with the configuration-specific console message, syncToR2
returns success = false with the configuration-specific error string, and
both perform zero remote calls (no startProcess, getStatus or getLogs). -/
theorem config_missing_short_circuit (sb : SandboxR2) (env : MoltbotEnv)
    (h : (isFalsy env.R2_ACCESS_KEY_ID || isFalsy env.R2_SECRET_ACCESS_KEY ||
      isFalsy env.CF_ACCOUNT_ID) = true) :
    mountR2Storage sb env =
      { mounted := false, logs := [R2Log.notConfigured], calls := [] } ∧
    syncToR2 sb env =
      { result := { success := false, lastSync := none, error := some "R2 storage is not configured", details := none }, calls := [] } := by
  constructor
  · rw [mountR2Storage, if_pos h]
  · rw [syncToR2, syncToR2With, if_pos h]

/-- C1 witness: a concrete environment with the access key absent. -/
theorem config_missing_short_circuit_witness :
    mountR2Storage { startProcess := fun _ => Except.error "unreachable" } { R2_ACCESS_KEY_ID := none, R2_SECRET_ACCESS_KEY := some "s", CF_ACCOUNT_ID := some "a" } =
      { mounted := false, logs := [R2Log.notConfigured], calls := [] } ∧
    syncToR2 { startProcess := fun _ => Except.error "unreachable" } { R2_ACCESS_KEY_ID := none, R2_SECRET_ACCESS_KEY := some "s", CF_ACCOUNT_ID := some "a" } =
      { result := { success := false, lastSync := none, error := some "R2 storage is not configured", details := none }, calls := [] } :=
  config_missing_short_circuit _ _ (by decide)

/-- C2: for every log snapshot delivered by the backend, the mount verdict
of isR2Mounted, and the success of syncToR2 in a configured environment,
hold exactly when the captured stdout contains the case-sensitive tigrisfs
filesystem-type marker; a different filesystem type at the same path or an
empty stdout yields a negative verdict. -/
theorem mount_verdict_iff (sb : SandboxR2) (proc : Proc) (logs : Logs) (env : MoltbotEnv)
    (hstart : sb.startProcess (r2Cmd R2_MOUNT_PATH) = Except.ok proc)
    (hlogs : proc.getLogs = Except.ok logs)
    (hcfg : (isFalsy env.R2_ACCESS_KEY_ID || isFalsy env.R2_SECRET_ACCESS_KEY ||
      isFalsy env.CF_ACCOUNT_ID) = false) :
    ((isR2Mounted sb).mounted = true ↔ strIncludes logs.stdout "tigrisfs" = true) ∧
    ((syncToR2 sb env).result.success = true ↔ strIncludes logs.stdout "tigrisfs" = true) := by
  constructor
  · rw [isR2Mounted, isR2MountedWith, hstart]
    simp only [hlogs]
    rw [mounted_flag_eq]
  · rw [syncToR2, syncToR2With, hcfg]
    simp only [Bool.false_eq_true, if_false, hstart]
    simp only [hlogs]
    rw [mounted_flag_eq]
    cases hm : strIncludes logs.stdout "tigrisfs" with
    | true => simp [hm]
    | false => simp [hm]

/-- C2 witness: the three scenario outputs of the specification: the exact
tigrisfs mount line is positive, an s3fs line at the same path is negative,
and empty stdout is negative. -/
theorem mount_verdict_iff_witness :
    ((isR2Mounted { startProcess := fun _ => Except.ok { statusAt := fun _ => "completed", getLogs := Except.ok { stdout := "tigrisfs on /data/moltbot type fuse.tigrisfs", stderr := "" } } }).mounted = true ↔ strIncludes "tigrisfs on /data/moltbot type fuse.tigrisfs" "tigrisfs" = true) ∧
    strIncludes "tigrisfs on /data/moltbot type fuse.tigrisfs" "tigrisfs" = true ∧
    ((isR2Mounted { startProcess := fun _ => Except.ok { statusAt := fun _ => "completed", getLogs := Except.ok { stdout := "s3fs on /data/moltbot type fuse.s3fs", stderr := "" } } }).mounted = true ↔ strIncludes "s3fs on /data/moltbot type fuse.s3fs" "tigrisfs" = true) ∧
    strIncludes "s3fs on /data/moltbot type fuse.s3fs" "tigrisfs" = false ∧
    ((syncToR2 { startProcess := fun _ => Except.ok { statusAt := fun _ => "completed", getLogs := Except.ok { stdout := "", stderr := "" } } } { R2_ACCESS_KEY_ID := some "k", R2_SECRET_ACCESS_KEY := some "s", CF_ACCOUNT_ID := some "a" }).result.success = true ↔ strIncludes "" "tigrisfs" = true) ∧
    strIncludes "" "tigrisfs" = false := by
  refine ⟨?_, by decide, ?_, by decide, ?_, by decide⟩
  · exact (mount_verdict_iff _ { statusAt := fun _ => "completed", getLogs := Except.ok { stdout := "tigrisfs on /data/moltbot type fuse.tigrisfs", stderr := "" } } { stdout := "tigrisfs on /data/moltbot type fuse.tigrisfs", stderr := "" } { R2_ACCESS_KEY_ID := some "k", R2_SECRET_ACCESS_KEY := some "s", CF_ACCOUNT_ID := some "a" } rfl rfl (by decide)).1
  · exact (mount_verdict_iff _ { statusAt := fun _ => "completed", getLogs := Except.ok { stdout := "s3fs on /data/moltbot type fuse.s3fs", stderr := "" } } { stdout := "s3fs on /data/moltbot type fuse.s3fs", stderr := "" } { R2_ACCESS_KEY_ID := some "k", R2_SECRET_ACCESS_KEY := some "s", CF_ACCOUNT_ID := some "a" } rfl rfl (by decide)).1
  · exact (mount_verdict_iff _ { statusAt := fun _ => "completed", getLogs := Except.ok { stdout := "", stderr := "" } } { stdout := "", stderr := "" } { R2_ACCESS_KEY_ID := some "k", R2_SECRET_ACCESS_KEY := some "s", CF_ACCOUNT_ID := some "a" } rfl rfl (by decide)).2

/-- C3: the /debug/processes listing sort is a permutation of its input,
sorted by the two-key order (status rank running 0, starting 1, completed
2, failed 3, unknown 99, ascending; then startTime descending with an
absent startTime comparing as the empty string), and records sharing
status and startTime keep their relative input order (stability). -/
theorem debug_processes_ordering (l : List ProcData) :
    List.Perm (sortProcesses l) l ∧
    List.Pairwise (fun a b =>
      statusOrder a.status < statusOrder b.status ∨
      (statusOrder a.status = statusOrder b.status ∧ timeKey b ≤ timeKey a))
      (sortProcesses l) ∧
    (∀ S : String, ∀ T : Option String,
      (sortProcesses l).filter (fun d => decide (d.status = S ∧ d.startTime = T)) =
        l.filter (fun d => decide (d.status = S ∧ d.startTime = T))) ∧
    statusOrder "running" = 0 ∧ statusOrder "starting" = 1 ∧
    statusOrder "completed" = 2 ∧ statusOrder "failed" = 3 ∧
    (∀ s : String, s ≠ "running" → s ≠ "starting" → s ≠ "completed" → s ≠ "failed" →
      statusOrder s = 99) ∧
    (∀ d : ProcData, d.startTime = none → timeKey d = "") := by
  haveI := procLE_total
  haveI := procLE_trans
  refine ⟨List.perm_insertionSort procLE l, ?_, ?_, rfl, rfl, rfl, rfl, ?_, ?_⟩
  · exact List.Pairwise.imp (fun h => (procLE_iff _ _).mp h)
      (List.sorted_insertionSort procLE l)
  · intro S T
    apply filter_insertionSort procLE _ _
    intro x y hx hy
    obtain ⟨hxs, hxt⟩ := of_decide_eq_true hx
    obtain ⟨hys, hyt⟩ := of_decide_eq_true hy
    exact procLE_of_same x y (hxs.trans hys.symm) (hxt.trans hyt.symm)
  · intro s h1 h2 h3 h4
    simp [statusOrder, h1, h2, h3, h4]
  · intro d hd
    simp [timeKey, hd]

/-- C3 witness: a concrete two-record listing, an unknown status ranked 99,
and an absent startTime keyed as the empty string. -/
theorem debug_processes_ordering_witness :
    List.Perm (sortProcesses [{ id := "a", command := "c1", status := "completed", startTime := some "2024-01-01", endTime := none, exitCode := some 0, stdout := none, stderr := none, logs_error := none }, { id := "b", command := "c2", status := "running", startTime := none, endTime := none, exitCode := none, stdout := none, stderr := none, logs_error := none }]) [{ id := "a", command := "c1", status := "completed", startTime := some "2024-01-01", endTime := none, exitCode := some 0, stdout := none, stderr := none, logs_error := none }, { id := "b", command := "c2", status := "running", startTime := none, endTime := none, exitCode := none, stdout := none, stderr := none, logs_error := none }] ∧
    statusOrder "zombie" = 99 ∧
    timeKey { id := "b", command := "c2", status := "running", startTime := none, endTime := none, exitCode := none, stdout := none, stderr := none, logs_error := none } = "" := by
  obtain ⟨hperm, hpair, hfilt, h0, h1, h2, h3, hunk, htime⟩ :=
    debug_processes_ordering [{ id := "a", command := "c1", status := "completed", startTime := some "2024-01-01", endTime := none, exitCode := some 0, stdout := none, stderr := none, logs_error := none }, { id := "b", command := "c2", status := "running", startTime := none, endTime := none, exitCode := none, stdout := none, stderr := none, logs_error := none }]
  exact ⟨hperm,
    hunk "zombie" (by decide) (by decide) (by decide) (by decide),
    htime _ rfl⟩

/-- C4: in each of the three poll loops (isR2Mounted, /debug/cli,
/debug/container-config), when the status observed at the first check is
not running, the loop stops at that first check with zero further timed
waits before logs are fetched: the check-first loop of isR2Mounted
performs no wait at all, and the two sleep-first loops perform exactly
their single pre-check wait. -/
theorem poll_terminal_immediate (statusAt : Nat → String) (h : statusAt 0 ≠ "running") :
    r2PollWaits statusAt = 0 ∧ cliPollWaits statusAt = 1 ∧
    containerConfigPollWaits statusAt = 1 :=
  ⟨checkFirstPollGo_not_running statusAt 9 0 h,
   sleepFirstPollGo_not_running statusAt 29 0 h,
   sleepFirstPollGo_not_running statusAt 9 0 h⟩

/-- C4 witness: a process already completed at the first check. -/
theorem poll_terminal_immediate_witness :
    r2PollWaits (fun _ => "completed") = 0 ∧ cliPollWaits (fun _ => "completed") = 1 ∧
    containerConfigPollWaits (fun _ => "completed") = 1 :=
  poll_terminal_immediate (fun _ => "completed") (by decide)

/-- C5 counterexample: isR2Mounted returns a bare boolean, so no reading of
its return value can recover the rejection message of startProcess: there
is no function of the returned verdict that yields the message verbatim,
refuting the claim that both detection entry points carry the message in a
detail field of their result. -/
theorem start_failure_detail_counterexample :
    ¬ ∃ detailOf : Bool → Option String, ∀ msg : String,
      detailOf (isR2Mounted { startProcess := fun _ => Except.error msg }).mounted = some msg := by
  rintro ⟨f, hf⟩
  have ha := hf "a"
  have hb := hf "b"
  have h1 : (isR2Mounted { startProcess := fun _ => Except.error "a" }).mounted = false := rfl
  have h2 : (isR2Mounted { startProcess := fun _ => Except.error "b" }).mounted = false := rfl
  rw [h1] at ha
  rw [h2] at hb
  rw [ha] at hb
  exact absurd hb (by decide)

/-- C5 as amended: when startProcess rejects with a message, syncToR2
returns success = false with the fixed error string and the message
verbatim in details; isR2Mounted returns false and records the message
only in its console log; mountR2Storage returns false; none of them
propagates the failure. -/
theorem start_failure_detail (sb : SandboxR2) (env : MoltbotEnv) (msg : String)
    (hcfg : (isFalsy env.R2_ACCESS_KEY_ID || isFalsy env.R2_SECRET_ACCESS_KEY ||
      isFalsy env.CF_ACCOUNT_ID) = false)
    (hstart : sb.startProcess (r2Cmd R2_MOUNT_PATH) = Except.error msg) :
    (syncToR2 sb env).result = { success := false, lastSync := none, error := some "Failed to check mount status", details := some msg } ∧
    (isR2Mounted sb).mounted = false ∧
    (isR2Mounted sb).logs = [R2Log.checkError msg] ∧
    (isR2Mounted sb).calls = [RemoteCall.startProcess (r2Cmd R2_MOUNT_PATH)] ∧
    (mountR2Storage sb env).mounted = false := by
  have hmnt : isR2Mounted sb = { mounted := false, logs := [R2Log.checkError msg], calls := [RemoteCall.startProcess (r2Cmd R2_MOUNT_PATH)] } := by
    rw [isR2Mounted, isR2MountedWith, hstart]
  refine ⟨?_, by rw [hmnt], by rw [hmnt], by rw [hmnt], ?_⟩
  · rw [syncToR2, syncToR2With, hcfg]
    simp only [Bool.false_eq_true, if_false, hstart]
  · rw [mountR2Storage, if_neg (by rw [hcfg]; exact Bool.false_ne_true), hmnt]
    simp

/-- C5 witness: the rejection message of the unit tests. -/
theorem start_failure_detail_witness :
    (syncToR2 { startProcess := fun _ => Except.error "Command failed" } { R2_ACCESS_KEY_ID := some "k", R2_SECRET_ACCESS_KEY := some "s", CF_ACCOUNT_ID := some "a" }).result = { success := false, lastSync := none, error := some "Failed to check mount status", details := some "Command failed" } ∧
    (isR2Mounted { startProcess := fun _ => Except.error "Command failed" }).logs = [R2Log.checkError "Command failed"] :=
  ⟨(start_failure_detail _ _ "Command failed" (by decide) rfl).1,
   (start_failure_detail _ { R2_ACCESS_KEY_ID := some "k", R2_SECRET_ACCESS_KEY := some "s", CF_ACCOUNT_ID := some "a" } "Command failed" (by decide) rfl).2.2.1⟩

/-- C6: the container-config reader returns parse failure as data: when
the parser throws, config is null and raw keeps the original stdout; and a
non-null config implies the parse succeeded.  The reader is a total
function, so the parse never raises to the caller. -/
theorem container_config_parse (P : String → Option JsonValue) (st : String)
    (ec : Option Int) (logs : Logs) :
    (P logs.stdout = none →
      (containerConfigRead P st ec logs).config = JsonValue.jnull ∧
      (containerConfigRead P st ec logs).raw = some logs.stdout) ∧
    ((containerConfigRead P st ec logs).config ≠ JsonValue.jnull →
      (P logs.stdout).isSome = true) := by
  constructor
  · intro hP
    constructor
    · simp [containerConfigRead, hP]
    · simp [containerConfigRead, hP, jsTruthy]
  · intro hC
    cases hP : P logs.stdout with
    | none =>
      exfalso
      apply hC
      simp [containerConfigRead, hP]
    | some v => rfl

/-- C6 witness: a parser rejecting a concrete non-JSON stdout. -/
theorem container_config_parse_witness :
    (containerConfigRead (fun s => if s = "{}" then some JsonValue.jobj else none) "completed" (some 0) { stdout := "not json", stderr := "" }).config = JsonValue.jnull ∧
    (containerConfigRead (fun s => if s = "{}" then some JsonValue.jobj else none) "completed" (some 0) { stdout := "not json", stderr := "" }).raw = some "not json" :=
  (container_config_parse (fun s => if s = "{}" then some JsonValue.jobj else none) "completed" (some 0) { stdout := "not json", stderr := "" }).1 (by decide)

/-- C7: with logs requested, a getLogs failure for one handle yields that
record with the logs_error marker and no stdout/stderr, a successful
getLogs yields the stdout/stderr fields, and the listing still returns all
records. -/
theorem debug_processes_log_isolation (handles : List ProcHandle) :
    (listProcessesRoute true handles).length = handles.length ∧
    List.Perm (listProcessesRoute true handles) (handles.map (enrichProcess true)) ∧
    (∀ p : ProcHandle, ∀ e : String, p.getLogs = Except.error e →
      enrichProcess true p = { id := p.id, command := p.command, status := p.status, startTime := p.startTime, endTime := p.endTime, exitCode := p.exitCode, stdout := none, stderr := none, logs_error := some "Failed to retrieve logs" }) ∧
    (∀ p : ProcHandle, ∀ L : Logs, p.getLogs = Except.ok L →
      enrichProcess true p = { id := p.id, command := p.command, status := p.status, startTime := p.startTime, endTime := p.endTime, exitCode := p.exitCode, stdout := some L.stdout, stderr := some L.stderr, logs_error := none }) := by
  refine ⟨?_, List.perm_insertionSort procLE _, ?_, ?_⟩
  · rw [listProcessesRoute, sortProcesses,
      (List.perm_insertionSort procLE _).length_eq, List.length_map]
  · intro p e he
    simp [enrichProcess, he]
  · intro p L hL
    simp [enrichProcess, hL]

/-- C7 witness: one failing and one succeeding handle; the listing keeps
both records. -/
theorem debug_processes_log_isolation_witness :
    enrichProcess true { id := "x", command := "run", status := "completed", startTime := none, endTime := none, exitCode := some 1, getLogs := Except.error "boom" } = { id := "x", command := "run", status := "completed", startTime := none, endTime := none, exitCode := some 1, stdout := none, stderr := none, logs_error := some "Failed to retrieve logs" } ∧
    enrichProcess true { id := "y", command := "run2", status := "completed", startTime := none, endTime := none, exitCode := some 0, getLogs := Except.ok { stdout := "out", stderr := "err" } } = { id := "y", command := "run2", status := "completed", startTime := none, endTime := none, exitCode := some 0, stdout := some "out", stderr := some "err", logs_error := none } ∧
    (listProcessesRoute true [{ id := "x", command := "run", status := "completed", startTime := none, endTime := none, exitCode := some 1, getLogs := Except.error "boom" }, { id := "y", command := "run2", status := "completed", startTime := none, endTime := none, exitCode := some 0, getLogs := Except.ok { stdout := "out", stderr := "err" } }]).length = 2 := by
  obtain ⟨hlen, hperm, herr, hok⟩ := debug_processes_log_isolation [{ id := "x", command := "run", status := "completed", startTime := none, endTime := none, exitCode := some 1, getLogs := Except.error "boom" }, { id := "y", command := "run2", status := "completed", startTime := none, endTime := none, exitCode := some 0, getLogs := Except.ok { stdout := "out", stderr := "err" } }]
  exact ⟨herr _ "boom" rfl, hok _ { stdout := "out", stderr := "err" } rfl, hlen⟩

/-- C8 counterexample: the node version extraction of the version route
ignores stderr, so with empty stdout and a non-empty stderr it returns the
empty string instead of the trimmed stderr demanded by the claim. -/
theorem version_extract_counterexample :
    nodeVersionOf { stdout := "", stderr := "v22.11.0\n" } = "" ∧
    specVersionExtract { stdout := "", stderr := "v22.11.0\n" } = "v22.11.0" ∧
    nodeVersionOf { stdout := "", stderr := "v22.11.0\n" } ≠ specVersionExtract { stdout := "", stderr := "v22.11.0\n" } := by
  refine ⟨by decide, by decide, by decide⟩

/-- C8 as amended: the clawdbot version extraction returns the trimmed
first non-empty stream among stdout and stderr, preferring stdout; the
node version extraction returns trimmed stdout only, so stderr is never
consulted there. -/
theorem version_extract_per_site (logs : Logs) :
    clawdbotVersionOf logs = specVersionExtract logs ∧
    nodeVersionOf logs = strTrim logs.stdout := by
  constructor
  · rw [clawdbotVersionOf, specVersionExtract]
    by_cases h1 : logs.stdout = ""
    · rw [if_pos h1, if_pos h1]
      by_cases h2 : logs.stderr = ""
      · rw [if_pos h2, if_pos h2, strTrim_empty]
      · rw [if_neg h2, if_neg h2]
    · rw [if_neg h1, if_neg h1]
  · rw [nodeVersionOf]
    by_cases h1 : logs.stdout = ""
    · rw [if_pos h1, h1]
    · rw [if_neg h1]

/-- C9: the mount detector verdict, console log and call trace are a
deterministic function of the backend responses alone: equal backend
response tables give equal outcomes for syncToR2, isR2Mounted and
mountR2Storage, and two successive calls with no backend change return the
same result with the same remote calls (no caching, no persisted state,
the second call is neither cheaper nor different). -/
theorem mount_detector_deterministic (sb1 sb2 : SandboxR2) (env : MoltbotEnv)
    (h : sb1.startProcess = sb2.startProcess) :
    syncToR2 sb1 env = syncToR2 sb2 env ∧
    isR2Mounted sb1 = isR2Mounted sb2 ∧
    mountR2Storage sb1 env = mountR2Storage sb2 env ∧
    (syncToR2 sb1 env).calls = (syncToR2 sb2 env).calls ∧
    (syncToR2Twice sb1 env).1 = (syncToR2Twice sb1 env).2 := by
  cases sb1
  cases sb2
  cases h
  exact ⟨rfl, rfl, rfl, rfl, rfl⟩

/-- C9 witness: a concrete backend queried twice. -/
theorem mount_detector_deterministic_witness :
    syncToR2 { startProcess := fun _ => Except.ok { statusAt := fun _ => "completed", getLogs := Except.ok { stdout := "", stderr := "" } } } { R2_ACCESS_KEY_ID := some "k", R2_SECRET_ACCESS_KEY := some "s", CF_ACCOUNT_ID := some "a" } = syncToR2 { startProcess := fun _ => Except.ok { statusAt := fun _ => "completed", getLogs := Except.ok { stdout := "", stderr := "" } } } { R2_ACCESS_KEY_ID := some "k", R2_SECRET_ACCESS_KEY := some "s", CF_ACCOUNT_ID := some "a" } ∧
    (syncToR2Twice { startProcess := fun _ => Except.ok { statusAt := fun _ => "completed", getLogs := Except.ok { stdout := "", stderr := "" } } } { R2_ACCESS_KEY_ID := some "k", R2_SECRET_ACCESS_KEY := some "s", CF_ACCOUNT_ID := some "a" }).1 = (syncToR2Twice { startProcess := fun _ => Except.ok { statusAt := fun _ => "completed", getLogs := Except.ok { stdout := "", stderr := "" } } } { R2_ACCESS_KEY_ID := some "k", R2_SECRET_ACCESS_KEY := some "s", CF_ACCOUNT_ID := some "a" }).2 := by
  have h := mount_detector_deterministic { startProcess := fun _ => Except.ok { statusAt := fun _ => "completed", getLogs := Except.ok { stdout := "", stderr := "" } } } { startProcess := fun _ => Except.ok { statusAt := fun _ => "completed", getLogs := Except.ok { stdout := "", stderr := "" } } } { R2_ACCESS_KEY_ID := some "k", R2_SECRET_ACCESS_KEY := some "s", CF_ACCOUNT_ID := some "a" } rfl
  exact ⟨h.1, h.2.2.2.2⟩

/-- C10: any captured stdout containing the substring tigrisfs anywhere,
for any mount path and in any textual form, yields a positive client-side
verdict in both isR2Mounted and syncToR2; the configured mount path occurs
only in the remote grep command (the head of the call trace), never in the
client-side check of the captured output. -/
theorem tigrisfs_substring_drives_verdict (path : String) (sb : SandboxR2) (proc : Proc)
    (logs : Logs) (env : MoltbotEnv)
    (hstart : sb.startProcess (r2Cmd path) = Except.ok proc)
    (hlogs : proc.getLogs = Except.ok logs)
    (hmark : strIncludes logs.stdout "tigrisfs" = true)
    (hcfg : (isFalsy env.R2_ACCESS_KEY_ID || isFalsy env.R2_SECRET_ACCESS_KEY ||
      isFalsy env.CF_ACCOUNT_ID) = false) :
    (isR2MountedWith path sb).mounted = true ∧
    (syncToR2With path sb env).result.success = true ∧
    (isR2MountedWith path sb).calls.head? = some (RemoteCall.startProcess (r2Cmd path)) := by
  refine ⟨?_, ?_, ?_⟩
  · rw [isR2MountedWith, hstart]
    simp only [hlogs]
    rw [mounted_flag_eq]
    exact hmark
  · rw [syncToR2With, hcfg]
    simp only [Bool.false_eq_true, if_false, hstart]
    simp only [hlogs]
    rw [mounted_flag_eq]
    simp [hmark]
  · rw [isR2MountedWith, hstart]
    simp only [hlogs]
    rfl

/-- C10 witness: a tigrisfs occurrence embedded in an error message about a
different path still yields a positive verdict at the configured path. -/
theorem tigrisfs_substring_drives_verdict_witness :
    (isR2MountedWith "/data/moltbot" { startProcess := fun _ => Except.ok { statusAt := fun _ => "completed", getLogs := Except.ok { stdout := "ERROR: tigrisfs crashed on /other/path", stderr := "" } } }).mounted = true ∧
    strIncludes "ERROR: tigrisfs crashed on /other/path" "tigrisfs" = true := by
  have h := tigrisfs_substring_drives_verdict "/data/moltbot" { startProcess := fun _ => Except.ok { statusAt := fun _ => "completed", getLogs := Except.ok { stdout := "ERROR: tigrisfs crashed on /other/path", stderr := "" } } } { statusAt := fun _ => "completed", getLogs := Except.ok { stdout := "ERROR: tigrisfs crashed on /other/path", stderr := "" } } { stdout := "ERROR: tigrisfs crashed on /other/path", stderr := "" } { R2_ACCESS_KEY_ID := some "k", R2_SECRET_ACCESS_KEY := some "s", CF_ACCOUNT_ID := some "a" } rfl rfl (by decide) (by decide)
  exact ⟨h.1, by decide⟩

end Moltworker
